import Mathlib

/-!
Verification of the `stockparfait/errors` Go package (src/errors.go),
shallowly embedded in Lean 4.

Modelling conventions:
* A Go `error` interface value is `Option GoError` (`none` = Go `nil`).
* `GoError.base ty msg` models an error value of some foreign concrete
  type: `ty` is its dynamic type name (as used by `errors.As`) and
  `msg` the string its `Error()` method returns.
* `GoError.annotated orig curr` models `*annotatedError{orig, curr}`.
* Runtime stack introspection is made explicit: `runtime.Caller(stack)`
  becomes a function argument `callerAt : Nat → Option CallerInfo`, and
  the live call stack at the recovery point (what `runtime.Callers(3, pc)`
  walks, innermost first) becomes an argument `liveStack : List Frame`.
* `fmt.Sprintf(s, args...)` is modelled by its result string `formatted`;
  no claim depends on the formatting internals.
* Panicking is modelled by the explicit result type `FromPanicResult`:
  `.ret e` is a normal return, `.panic p` re-raises payload `p`.
-/

namespace StockparfaitErrors

/-- One entry of `runtime.Frame` as used by the package: `File`, `Line`,
`Function`. -/
structure Frame where
  file : String
  line : Nat
  function : String
deriving DecidableEq

/-- Call-site data returned by `runtime.Caller` on success:
filename, line, and the function name resolved via `runtime.FuncForPC`. -/
structure CallerInfo where
  file : String
  line : Nat
  function : String
deriving DecidableEq

/-- A Go `error` value reachable in this package's chains: either a foreign
error (dynamic type `ty`, message `msg`, no `Unwrap` method) or a
`*annotatedError` node with fields `orig : error` and `curr : string`. -/
inductive GoError where
  | base (ty : String) (msg : String) : GoError
  | annotated (orig : Option GoError) (curr : String) : GoError

/-- Structural equality of error values, modelling Go's `==` on the interface
values reachable here (value types compare by value; two nodes built from
equal fields compare equal). -/
def beqGoError : GoError → GoError → Bool
  | .base t1 m1, .base t2 m2 => t1 == t2 && m1 == m2
  | .annotated none c1, .annotated none c2 => c1 == c2
  | .annotated (some o1) c1, .annotated (some o2) c2 =>
      beqGoError o1 o2 && c1 == c2
  | _, _ => false

/-- `annotatedError.Error`: the node's own message, followed by a newline and
the wrapped error's full rendering when `orig` is non-nil; for a foreign
error, its own message. -/
def ErrorMsg : GoError → String
  | .base _ m => m
  | .annotated none c => c
  | .annotated (some o) c => c ++ "\n" ++ ErrorMsg o

/-- `annotatedError.Unwrap` returns `orig`; a foreign error has no `Unwrap`
method, modelled as `none`. -/
def unwrapGo : GoError → Option GoError
  | .base _ _ => none
  | .annotated o _ => o

/-- The helper `annotate(stack, s, args...)`: prefixes the formatted message
with `"ERROR: <file>:<line>: <function>() "` when `runtime.Caller(stack)`
succeeds, and with `"ERROR: ???: "` otherwise. -/
def annotate (callerAt : Nat → Option CallerInfo) (stack : Nat)
    (formatted : String) : String :=
  match callerAt stack with
  | some ci =>
      "ERROR: " ++ ci.file ++ ":" ++ toString ci.line ++ ": " ++
        ci.function ++ "() " ++ formatted
  | none => "ERROR: ???: " ++ formatted

/-- `ReasonStack(stack, s, args...)`: a fresh node with no predecessor. -/
def ReasonStack (callerAt : Nat → Option CallerInfo) (stack : Nat)
    (formatted : String) : GoError :=
  .annotated none (annotate callerAt stack formatted)

/-- `AnnotateStack(e, stack, s, args...)`: `nil` in, `nil` out; otherwise a
fresh node wrapping `e`. -/
def AnnotateStack (callerAt : Nat → Option CallerInfo) (e : Option GoError)
    (stack : Nat) (formatted : String) : Option GoError :=
  match e with
  | none => none
  | some orig => some (.annotated (some orig) (annotate callerAt stack formatted))

/-- `Reason(s, args...) = ReasonStack(3, s, args...)`. -/
def Reason (callerAt : Nat → Option CallerInfo) (formatted : String) : GoError :=
  ReasonStack callerAt 3 formatted

/-- `Annotate(e, s, args...) = AnnotateStack(e, 3, s, args...)`. -/
def Annotate (callerAt : Nat → Option CallerInfo) (e : Option GoError)
    (formatted : String) : Option GoError :=
  AnnotateStack callerAt e 3 formatted

/-- A value passed to `panic` / returned by `recover`: `noPanic` is the nil
recovery result, `errPayload orig curr` a `*annotatedError` payload with the
given fields, `foreign v` any payload of another dynamic type. -/
inductive PanicValue where
  | noPanic : PanicValue
  | errPayload (orig : Option GoError) (curr : String) : PanicValue
  | foreign (v : String) : PanicValue

/-- `ReasonPanic(s, args...) = panic(ReasonStack(3, s, args...))`: the panic
payload it raises. -/
def ReasonPanic (callerAt : Nat → Option CallerInfo) (formatted : String) :
    PanicValue :=
  .errPayload none (annotate callerAt 3 formatted)

/-- The first loop of `trimFrames`: on the first frame whose `Function` is
`"runtime.gopanic"` (index `i`), the slice becomes `frames[i+1:]`; when no
such frame exists the loop finishes without touching the slice. -/
def dropThroughGopanic (frames : List Frame) : List Frame :=
  match frames.findIdx? (fun f => f.function = "runtime.gopanic") with
  | some i => frames.drop (i + 1)
  | none => frames

/-- The second loop of `trimFrames`: on the first frame whose `Function` is
`"runtime.main"` (index `i`), the slice becomes `frames[:i]`; when no such
frame exists the slice is unchanged. -/
def takeUntilMain (frames : List Frame) : List Frame :=
  match frames.findIdx? (fun f => f.function = "runtime.main") with
  | some i => frames.take i
  | none => frames

/-- `trimFrames`: drop everything up to and including the panic-dispatch
marker, then cut at the program-entry marker; an absent marker leaves that
side untouched. -/
def trimFrames (frames : List Frame) : List Frame :=
  takeUntilMain (dropThroughGopanic frames)

/-- One trace line: `fmt.Sprintf("PANIC: %s:%d %s()", File, Line, Function)`. -/
def renderFrame (f : Frame) : String :=
  "PANIC: " ++ f.file ++ ":" ++ toString f.line ++ " " ++ f.function ++ "()"

/-- The trace lines `FromPanic` builds: trim the first (at most) 20 captured
frames, invert them in place, render each as a `PANIC:` line. -/
def panicTraceLines (liveStack : List Frame) : List String :=
  ((trimFrames (liveStack.take 20)).reverse).map renderFrame

/-- Result of `FromPanic`: a normal return of an error value, or a re-raised
panic. -/
inductive FromPanicResult where
  | ret (e : Option GoError) : FromPanicResult
  | panicked (p : PanicValue) : FromPanicResult

/-- `FromPanic(p)`: nil payload returns nil; a `*annotatedError` payload is
wrapped in a new node whose message is the rendered panic trace (the payload
itself is returned unwrapped when no frames were captured or trimming left no
trace lines); any other payload is re-raised via `panic(p)`. -/
def FromPanic (liveStack : List Frame) (p : PanicValue) : FromPanicResult :=
  match p with
  | .noPanic => .ret none
  | .errPayload orig curr =>
      let pcs := liveStack.take 20
      if pcs.length = 0 then .ret (some (.annotated orig curr))
      else
        let traces := panicTraceLines liveStack
        if traces.length = 0 then .ret (some (.annotated orig curr))
        else .ret (some (.annotated (some (.annotated orig curr))
          (String.intercalate "\n" traces)))
  | .foreign v => .panicked (.foreign v)

/-- The walk of Go's `errors.Is` for a non-nil target: report equality with
the current error, else follow `Unwrap`; a foreign error has no `Unwrap`, and
a nil `orig` stops the walk. (No error here defines a custom `Is` method.) -/
def isTgt (t : GoError) : GoError → Bool
  | .base ty m => beqGoError (.base ty m) t
  | .annotated o c =>
      beqGoError (.annotated o c) t ||
        match o with
        | none => false
        | some e => isTgt t e

/-- `Is(err, target)`, delegating to Go's `errors.Is`: a nil target matches
only a nil error; otherwise walk the `Unwrap` chain from `err`. -/
def Is (err target : Option GoError) : Bool :=
  match target with
  | none => err.isNone
  | some t =>
      match err with
      | none => false
      | some e => isTgt t e

/-- The walk of Go's `errors.As` targeting dynamic type `ty`: return the
first error in the `Unwrap` chain whose dynamic type is `ty` (`some` models
`As` returning true with the target slot set to that value). A chain node's
dynamic type is `*errors.annotatedError`. -/
def asTy (ty : String) : GoError → Option GoError
  | .base t m => if t = ty then some (.base t m) else none
  | .annotated o c =>
      if "*errors.annotatedError" = ty then some (.annotated o c)
      else
        match o with
        | none => none
        | some e => asTy ty e

/-- `As(err, target)`, delegating to Go's `errors.As`: nothing is found in a
nil error. -/
def As (ty : String) (err : Option GoError) : Option GoError :=
  match err with
  | none => none
  | some e => asTy ty e

/-! ### Helper lemmas about the frame-trimming loops -/

theorem findIdx_first_marker (p : Frame → Bool) (a rest : List Frame)
    (gp : Frame) (hgp : p gp = true) (ha : ∀ f ∈ a, p f = false) :
    (a ++ gp :: rest).findIdx? p = some a.length := by
  induction a with
  | nil => simp [List.findIdx?_cons, hgp]
  | cons f a ih =>
      have hf : p f = false := ha f (List.mem_cons_self f a)
      have ha' : ∀ g ∈ a, p g = false := fun g hg => ha g (List.mem_cons_of_mem f hg)
      simp [List.findIdx?_cons, hf, List.findIdx?_start_succ, ih ha']

theorem dropThroughGopanic_of_no_marker (l : List Frame)
    (h : ∀ f ∈ l, f.function ≠ "runtime.gopanic") :
    dropThroughGopanic l = l := by
  have hn : l.findIdx? (fun f => f.function = "runtime.gopanic") = none := by
    rw [List.findIdx?_eq_none_iff]
    intro x hx
    simpa using h x hx
  simp [dropThroughGopanic, hn]

theorem dropThroughGopanic_append (a rest : List Frame) (gp : Frame)
    (hgp : gp.function = "runtime.gopanic")
    (ha : ∀ f ∈ a, f.function ≠ "runtime.gopanic") :
    dropThroughGopanic (a ++ gp :: rest) = rest := by
  have hidx : (a ++ gp :: rest).findIdx?
      (fun f => f.function = "runtime.gopanic") = some a.length := by
    apply findIdx_first_marker
    · simpa using hgp
    · intro f hf
      simpa using ha f hf
  have hdrop : (a ++ gp :: rest).drop (a.length + 1) = rest := by
    have : a ++ gp :: rest = (a ++ [gp]) ++ rest := by simp
    rw [this]
    exact List.drop_left' (by simp)
  simp [dropThroughGopanic, hidx, hdrop]

theorem takeUntilMain_of_no_marker (l : List Frame)
    (h : ∀ f ∈ l, f.function ≠ "runtime.main") :
    takeUntilMain l = l := by
  have hn : l.findIdx? (fun f => f.function = "runtime.main") = none := by
    rw [List.findIdx?_eq_none_iff]
    intro x hx
    simpa using h x hx
  simp [takeUntilMain, hn]

theorem takeUntilMain_append (b c : List Frame) (rm : Frame)
    (hrm : rm.function = "runtime.main")
    (hb : ∀ f ∈ b, f.function ≠ "runtime.main") :
    takeUntilMain (b ++ rm :: c) = b := by
  have hidx : (b ++ rm :: c).findIdx?
      (fun f => f.function = "runtime.main") = some b.length := by
    apply findIdx_first_marker
    · simpa using hrm
    · intro f hf
      simpa using hb f hf
  simp [takeUntilMain, hidx, List.take_left]

/-! ### Claims -/

/-- C3: for every frame list containing both markers — first the
abnormal-exit dispatch marker `"runtime.gopanic"`, later the program-entry
marker `"runtime.main"` — the Frame Trimmer keeps exactly the frames
strictly between the two markers, and after the in-place inversion in
`FromPanic` they appear reversed, outermost surviving caller first. -/
theorem spec_C3 (a b c : List Frame) (gp rm : Frame)
    (hgp : gp.function = "runtime.gopanic")
    (hrm : rm.function = "runtime.main")
    (ha : ∀ f ∈ a, f.function ≠ "runtime.gopanic")
    (hb : ∀ f ∈ b, f.function ≠ "runtime.main") :
    trimFrames (a ++ gp :: (b ++ rm :: c)) = b ∧
      (trimFrames (a ++ gp :: (b ++ rm :: c))).reverse = b.reverse := by
  have htrim : trimFrames (a ++ gp :: (b ++ rm :: c)) = b := by
    unfold trimFrames
    rw [dropThroughGopanic_append a (b ++ rm :: c) gp hgp ha]
    exact takeUntilMain_append b c rm hrm hb
  exact ⟨htrim, by rw [htrim]⟩

/-- Witness for C3, on the frame list of the repository's own test. -/
theorem spec_C3_witness :
    trimFrames [⟨"", 0, "aa"⟩, ⟨"", 0, "runtime.gopanic"⟩, ⟨"", 0, "cc"⟩,
        ⟨"", 0, "bb"⟩, ⟨"", 0, "runtime.main"⟩, ⟨"", 0, "runtime.top"⟩] =
      [⟨"", 0, "cc"⟩, ⟨"", 0, "bb"⟩] ∧
    (trimFrames [⟨"", 0, "aa"⟩, ⟨"", 0, "runtime.gopanic"⟩, ⟨"", 0, "cc"⟩,
        ⟨"", 0, "bb"⟩, ⟨"", 0, "runtime.main"⟩, ⟨"", 0, "runtime.top"⟩]).reverse =
      [⟨"", 0, "bb"⟩, ⟨"", 0, "cc"⟩] :=
  spec_C3 [⟨"", 0, "aa"⟩] [⟨"", 0, "cc"⟩, ⟨"", 0, "bb"⟩]
    [⟨"", 0, "runtime.top"⟩] ⟨"", 0, "runtime.gopanic"⟩ ⟨"", 0, "runtime.main"⟩
    rfl rfl (by decide) (by decide)

/-- C6: a frame list containing neither the `"runtime.gopanic"` marker nor
the `"runtime.main"` marker passes through `trimFrames` unchanged. -/
theorem spec_C6 (l : List Frame)
    (h : ∀ f ∈ l, f.function ≠ "runtime.gopanic" ∧ f.function ≠ "runtime.main") :
    trimFrames l = l := by
  unfold trimFrames
  rw [dropThroughGopanic_of_no_marker l (fun f hf => (h f hf).1)]
  exact takeUntilMain_of_no_marker l (fun f hf => (h f hf).2)

/-- Witness for C6, on the two-frame marker-free list from the test. -/
theorem spec_C6_witness :
    trimFrames [⟨"", 0, "cc"⟩, ⟨"", 0, "bb"⟩] = [⟨"", 0, "cc"⟩, ⟨"", 0, "bb"⟩] :=
  spec_C6 [⟨"", 0, "cc"⟩, ⟨"", 0, "bb"⟩] (by decide)

/-- C1: rendering a chain node yields its own message followed, when a
wrapped predecessor exists, by a newline and the predecessor's full
rendering (newest-first); a node with no predecessor renders as just its
message; consequently, for every non-nil error `e` the rendering of
`AnnotateStack e` (any call site, any formatted message) has `e`'s full
prior rendering as a suffix. -/
theorem spec_C1 :
    (∀ c : String, ErrorMsg (.annotated none c) = c) ∧
    (∀ (o : GoError) (c : String),
      ErrorMsg (.annotated (some o) c) = c ++ "\n" ++ ErrorMsg o) ∧
    (∀ (callerAt : Nat → Option CallerInfo) (st : Nat) (fmtd : String)
      (e : GoError), ∃ pre,
      (AnnotateStack callerAt (some e) st fmtd).map ErrorMsg =
        some (pre ++ ErrorMsg e)) := by
  refine ⟨fun c => rfl, fun o c => rfl, fun callerAt st fmtd e => ?_⟩
  refine ⟨annotate callerAt st fmtd ++ "\n", ?_⟩
  simp [AnnotateStack, ErrorMsg, String.append_assoc]

/-- C2: annotating a nil error returns nil, for every call site, stack
depth, and formatted message, both through `AnnotateStack` and through the
convenience form `Annotate`. -/
theorem spec_C2 :
    ∀ (callerAt : Nat → Option CallerInfo) (st : Nat) (fmtd : String),
      AnnotateStack callerAt none st fmtd = none ∧
      Annotate callerAt none fmtd = none :=
  fun _ _ _ => ⟨rfl, rfl⟩

/-- C5: a panic payload that is not a `*annotatedError` produced by this
package is re-raised by `FromPanic` unchanged — same payload, propagated as
a panic — whatever the live call stack looks like. -/
theorem spec_C5 :
    ∀ (liveStack : List Frame) (v : String),
      FromPanic liveStack (.foreign v) = .panicked (.foreign v) :=
  fun _ _ => rfl

/-- C9: `FromPanic` applied to a nil payload (no panic occurred) returns
nil, whatever the live call stack looks like. -/
theorem spec_C9 :
    ∀ liveStack : List Frame, FromPanic liveStack .noPanic = .ret none :=
  fun _ => rfl

/-- C8: when trimming the captured frames leaves zero trace lines (which
subsumes the capture of zero frames), `FromPanic` on a `*annotatedError`
payload returns the payload node itself, without a trace wrapper. -/
theorem spec_C8 (liveStack : List Frame) (orig : Option GoError) (curr : String)
    (h : trimFrames (liveStack.take 20) = []) :
    FromPanic liveStack (.errPayload orig curr) =
      .ret (some (.annotated orig curr)) := by
  have htr : panicTraceLines liveStack = [] := by
    simp [panicTraceLines, h]
  simp [FromPanic, htr]

/-- Witness for C8: a one-frame stack consisting of the program-entry
marker trims to nothing, and the payload comes back bare. -/
theorem spec_C8_witness :
    FromPanic [⟨"", 0, "runtime.main"⟩] (.errPayload none "boom") =
      .ret (some (.annotated none "boom")) :=
  spec_C8 [⟨"", 0, "runtime.main"⟩] none "boom" (by decide)

/-- Counterexample to C4 as stated: at call depth `N = 20` (twenty user
frames between the dispatch marker and the entry marker), the 20-slot
capture buffer cuts the stack before the program-entry marker, and the
recovered trace has only 19 lines, not 20. -/
theorem spec_C4_counterexample :
    panicTraceLines ((⟨"", 0, "runtime.gopanic"⟩ : Frame) ::
        (List.replicate 20 (⟨"u.go", 1, "user"⟩ : Frame) ++
          [⟨"", 0, "runtime.main"⟩])) =
      List.replicate 19 "PANIC: u.go:1 user()" ∧
    (List.replicate 19 "PANIC: u.go:1 user()").length ≠ 20 :=
  ⟨rfl, by decide⟩

/-- C4 (amended): recovering a panic raised by `ReasonPanic` with `N` user call frames
between the abort site and the recovery point (live stack: the panic
dispatch marker, then the `N` user frames innermost-first, then the
program-entry marker) yields a node wrapping the payload whose message is a
trace of exactly `N` lines, ordered outermost-caller-first with the abort
site last, each line of the form `PANIC: <file>:<line> <function>()`. The
bound `N ≤ 18` keeps the capture within the 20-slot buffer (see C10). -/
theorem spec_C4 (N : Nat) (gp rm : Frame) (userFrames rest : List Frame)
    (callerAt : Nat → Option CallerInfo) (fmtd : String)
    (hgp : gp.function = "runtime.gopanic")
    (hrm : rm.function = "runtime.main")
    (hu : ∀ f ∈ userFrames,
      f.function ≠ "runtime.gopanic" ∧ f.function ≠ "runtime.main")
    (hlen : userFrames.length = N) (hpos : 1 ≤ N) (hcap : N ≤ 18) :
    FromPanic (gp :: (userFrames ++ rm :: rest)) (ReasonPanic callerAt fmtd) =
      .ret (some (.annotated (some (.annotated none (annotate callerAt 3 fmtd)))
        (String.intercalate "\n" (userFrames.reverse.map renderFrame)))) ∧
    (userFrames.reverse.map renderFrame).length = N ∧
    ∀ f ∈ userFrames, renderFrame f =
      "PANIC: " ++ f.file ++ ":" ++ toString f.line ++ " " ++
        f.function ++ "()" := by
  have h19 : 19 = userFrames.length + ((18 - N) + 1) := by omega
  have htake19 : (userFrames ++ rm :: rest).take 19 =
      userFrames ++ rm :: rest.take (18 - N) := by
    rw [h19, List.take_append]
    simp
  have htake20 : (gp :: (userFrames ++ rm :: rest)).take 20 =
      gp :: (userFrames ++ rm :: rest.take (18 - N)) := by
    rw [show (20 : Nat) = 19 + 1 from rfl, List.take_succ_cons, htake19]
  have hdrop : dropThroughGopanic (gp :: (userFrames ++ rm :: rest.take (18 - N))) =
      userFrames ++ rm :: rest.take (18 - N) := by
    simpa using dropThroughGopanic_append [] (userFrames ++ rm :: rest.take (18 - N))
      gp hgp (by simp)
  have htakem : takeUntilMain (userFrames ++ rm :: rest.take (18 - N)) =
      userFrames :=
    takeUntilMain_append userFrames (rest.take (18 - N)) rm hrm
      (fun f hf => (hu f hf).2)
  have hlines : panicTraceLines (gp :: (userFrames ++ rm :: rest)) =
      userFrames.reverse.map renderFrame := by
    rw [panicTraceLines, htake20]
    unfold trimFrames
    rw [hdrop, htakem]
  have hpcs : ((gp :: (userFrames ++ rm :: rest)).take 20).length ≠ 0 := by
    rw [htake20]
    simp
  have hcount : (userFrames.reverse.map renderFrame).length = N := by
    simp [hlen]
  have hnz : (panicTraceLines (gp :: (userFrames ++ rm :: rest))).length ≠ 0 := by
    rw [hlines, hcount]
    omega
  refine ⟨?_, hcount, fun f _ => rfl⟩
  rw [ReasonPanic]
  simp only [FromPanic, if_neg hpcs, hlines]
  rw [if_neg (by rw [hcount]; omega)]

/-- Witness for C4 at depth `N = 2`: two user frames between the dispatch
marker and the entry marker produce a two-line trace wrapping the payload. -/
theorem spec_C4_witness :
    FromPanic (⟨"", 0, "runtime.gopanic"⟩ ::
        ([⟨"c.go", 3, "cc"⟩, ⟨"b.go", 4, "bb"⟩] ++ ⟨"", 0, "runtime.main"⟩ :: []))
      (ReasonPanic (fun _ => none) "boom") =
      .ret (some (.annotated (some (.annotated none (annotate (fun _ => none) 3 "boom")))
        (String.intercalate "\n"
          ([⟨"c.go", 3, "cc"⟩, ⟨"b.go", 4, "bb"⟩].reverse.map renderFrame)))) ∧
    (([⟨"c.go", 3, "cc"⟩, ⟨"b.go", 4, "bb"⟩] : List Frame).reverse.map renderFrame).length = 2 ∧
    ∀ f ∈ ([⟨"c.go", 3, "cc"⟩, ⟨"b.go", 4, "bb"⟩] : List Frame), renderFrame f =
      "PANIC: " ++ f.file ++ ":" ++ toString f.line ++ " " ++ f.function ++ "()" :=
  spec_C4 2 ⟨"", 0, "runtime.gopanic"⟩ ⟨"", 0, "runtime.main"⟩
    [⟨"c.go", 3, "cc"⟩, ⟨"b.go", 4, "bb"⟩] [] (fun _ => none) "boom"
    rfl rfl (by decide) rfl (by decide) (by decide)

theorem beqGoError_refl : ∀ e : GoError, beqGoError e e = true
  | .base _ _ => by simp [beqGoError]
  | .annotated none _ => by simp [beqGoError]
  | .annotated (some o) _ => by simp [beqGoError, beqGoError_refl o]

theorem isTgt_self (e : GoError) : isTgt e e = true := by
  cases e with
  | base t m => simp [isTgt, beqGoError_refl]
  | annotated o c =>
      cases o with
      | none => simp [isTgt, beqGoError_refl]
      | some o => simp [isTgt, beqGoError_refl]

theorem fromPanic_preserves_is (liveStack : List Frame) (curr : String)
    (t : GoError) :
    ∃ r, FromPanic liveStack (.errPayload (some t) curr) = .ret (some r) ∧
      Is (some r) (some t) = true := by
  by_cases hl : liveStack = []
  · subst hl
    exact ⟨.annotated (some t) curr, rfl, by simp [Is, isTgt, isTgt_self]⟩
  · by_cases h2 : (panicTraceLines liveStack).length = 0
    · refine ⟨.annotated (some t) curr, ?_, by simp [Is, isTgt, isTgt_self]⟩
      simp [FromPanic, hl, h2]
    · refine ⟨.annotated (some (.annotated (some t) curr))
        (String.intercalate "\n" (panicTraceLines liveStack)), ?_,
        by simp [Is, isTgt, isTgt_self]⟩
      simp [FromPanic, hl, h2]

/-- C7: the chain searches traverse every node this package creates:
`Is(annotate(e, ...), e)` holds for every non-nil `e`; `As` recovers a
wrapped value of a known concrete type through two layers of annotation
nodes; and a node built by the panic bridge (`FromPanic`) never hides the
error it wraps from `Is`, because each node's `Unwrap` returns its wrapped
predecessor. -/
theorem spec_C7 :
    (∀ (callerAt : Nat → Option CallerInfo) (st : Nat) (fmtd : String)
      (e : GoError),
      Is (AnnotateStack callerAt (some e) st fmtd) (some e) = true) ∧
    (∀ (ty m c1 c2 : String), ty ≠ "*errors.annotatedError" →
      As ty (some (.annotated (some (.annotated (some (.base ty m)) c1)) c2)) =
        some (.base ty m)) ∧
    (∀ (liveStack : List Frame) (curr : String) (t : GoError),
      ∃ r, FromPanic liveStack (.errPayload (some t) curr) = .ret (some r) ∧
        Is (some r) (some t) = true) := by
  refine ⟨fun callerAt st fmtd e => ?_, fun ty m c1 c2 h => ?_,
    fromPanic_preserves_is⟩
  · simp [Is, AnnotateStack, isTgt, isTgt_self]
  · simp [As, asTy, if_neg (Ne.symm h)]

/-- Witness for C7: a two-layer annotation over a `myError`-typed value is
found both by `Is` and by `As`. -/
theorem spec_C7_witness :
    Is (AnnotateStack (fun _ => none) (some (.base "errors.myError" "mine")) 3
        "annotated") (some (.base "errors.myError" "mine")) = true ∧
    As "errors.myError"
      (some (.annotated (some (.annotated (some (.base "errors.myError" "mine"))
        "c1")) "c2")) = some (.base "errors.myError" "mine") :=
  ⟨spec_C7.1 (fun _ => none) 3 "annotated" (.base "errors.myError" "mine"),
   spec_C7.2.1 "errors.myError" "mine" "c1" "c2" (by decide)⟩

theorem dropThroughGopanic_length_le (l : List Frame) :
    (dropThroughGopanic l).length ≤ l.length := by
  unfold dropThroughGopanic
  cases h : l.findIdx? (fun f => f.function = "runtime.gopanic") with
  | none => simp
  | some i => simp

theorem takeUntilMain_length_le (l : List Frame) :
    (takeUntilMain l).length ≤ l.length := by
  unfold takeUntilMain
  cases h : l.findIdx? (fun f => f.function = "runtime.main") with
  | none => simp
  | some i => simp [Nat.min_le_right]

theorem trimFrames_length_le (l : List Frame) :
    (trimFrames l).length ≤ l.length :=
  Nat.le_trans (takeUntilMain_length_le _) (dropThroughGopanic_length_le l)

/-- C10: `FromPanic` captures at most 20 program counters, so a converted
panic's trace never exceeds 20 lines; and when at least 20 user frames
separate the abort site from the recovery point, only the innermost 19
survive the capture — the trace is strictly shorter than the user-frame
count, the outermost callers missing. -/
theorem spec_C10 :
    (∀ liveStack : List Frame, (panicTraceLines liveStack).length ≤ 20) ∧
    (∀ (gp : Frame) (userFrames rest : List Frame),
      gp.function = "runtime.gopanic" →
      (∀ f ∈ userFrames,
        f.function ≠ "runtime.gopanic" ∧ f.function ≠ "runtime.main") →
      20 ≤ userFrames.length →
      panicTraceLines (gp :: (userFrames ++ rest)) =
        ((userFrames.take 19).reverse).map renderFrame ∧
      ((userFrames.take 19).reverse.map renderFrame).length <
        userFrames.length) := by
  constructor
  · intro liveStack
    calc (panicTraceLines liveStack).length
        = (trimFrames (liveStack.take 20)).length := by
          simp [panicTraceLines]
      _ ≤ (liveStack.take 20).length := trimFrames_length_le _
      _ ≤ 20 := by simp
  · intro gp userFrames rest hgp hu hlen
    have htake20 : (gp :: (userFrames ++ rest)).take 20 =
        gp :: userFrames.take 19 := by
      rw [show (20 : Nat) = 19 + 1 from rfl, List.take_succ_cons,
        List.take_append_of_le_length (by omega)]
    have hdrop : dropThroughGopanic (gp :: userFrames.take 19) =
        userFrames.take 19 := by
      simpa using dropThroughGopanic_append [] (userFrames.take 19) gp hgp
        (by simp)
    have htakem : takeUntilMain (userFrames.take 19) = userFrames.take 19 :=
      takeUntilMain_of_no_marker _
        (fun f hf => (hu f (List.mem_of_mem_take hf)).2)
    have hlines : panicTraceLines (gp :: (userFrames ++ rest)) =
        ((userFrames.take 19).reverse).map renderFrame := by
      rw [panicTraceLines, htake20]
      unfold trimFrames
      rw [hdrop, htakem]
    refine ⟨hlines, ?_⟩
    simp only [List.length_map, List.length_reverse, List.length_take]
    omega

/-- Witness for C10: a panic raised 20 user frames below the recovery point
keeps only the innermost 19 frames in its trace. -/
theorem spec_C10_witness :
    panicTraceLines (⟨"", 0, "runtime.gopanic"⟩ ::
        (List.replicate 20 (⟨"u.go", 1, "user"⟩ : Frame) ++ [])) =
      (((List.replicate 20 (⟨"u.go", 1, "user"⟩ : Frame)).take 19).reverse).map
        renderFrame ∧
    ((((List.replicate 20 (⟨"u.go", 1, "user"⟩ : Frame)).take 19).reverse).map
        renderFrame).length <
      (List.replicate 20 (⟨"u.go", 1, "user"⟩ : Frame)).length :=
  spec_C10.2 ⟨"", 0, "runtime.gopanic"⟩
    (List.replicate 20 (⟨"u.go", 1, "user"⟩ : Frame)) [] rfl
    (by intro f hf; rw [List.eq_of_mem_replicate hf]; exact ⟨by decide, by decide⟩)
    (by simp)

end StockparfaitErrors
